import Mathlib

/-!
Shallow embedding of the Go logging package (Fornaxian/log, file `log.go`).

Modelling conventions:
 * The package-level mutable variables `logLevel`, `defaultLevel` and
   `Colours` form a `State` record; every public operation is a function
   from `State` (and its explicit inputs) to a new `State` and/or a list
   of output `Event`s appended to stdout.
 * Strings are modelled as `List Char` (the paths handled by the claims
   are ASCII, where Go's byte indexing and rune counting coincide).
 * `runtime.Caller(2)` is modelled by passing the resolved caller file
   path `fn` and line number `ln` as explicit inputs.
 * `logger.Println msg` becomes the event `Event.println msg` (literal
   write, no format-directive interpretation) and `logger.Printf msg v`
   becomes `Event.printf msg v` (format string plus positional
   arguments); `debug.PrintStack()` becomes `Event.stackTrace`.
-/

namespace Log

/-- Go: `LevelTrace = 5`. -/
def LevelTrace : Int := 5

/-- Go: `LevelDebug = 4`. -/
def LevelDebug : Int := 4

/-- Go: `LevelInfo = 3`. -/
def LevelInfo : Int := 3

/-- Go: `LevelWarning = 2`. -/
def LevelWarning : Int := 2

/-- Go: `LevelError = 1`. -/
def LevelError : Int := 1

/-- Go: `LevelNone = 0`. -/
def LevelNone : Int := 0

/-- The package-level mutable variables of `log.go`:
`var logLevel = LevelDebug`, `var defaultLevel = LevelDebug`,
`var Colours = false`. -/
structure State where
  logLevel : Int
  defaultLevel : Int
  Colours : Bool
deriving DecidableEq

/-- The initial values of the three package-level variables. -/
def initState : State := { logLevel := LevelDebug, defaultLevel := LevelDebug, Colours := false }

/-- One observable write to the output stream:
`Event.println msg` for `logger.Println(msg)`,
`Event.printf msg v` for `logger.Printf(msg, v...)`, and
`Event.stackTrace` for `debug.PrintStack()`. -/
inductive Event where
  | println (msg : List Char)
  | printf (msg : List Char) (args : List (List Char))
  | stackTrace
deriving DecidableEq

/-- Go (inside `print`): `lvl = "\x1b[1m\x1b[" + colour + "m" + lvl + "\x1b[0m"`. -/
def colourWrap (colour lvl : List Char) : List Char :=
  "\x1b[1m\x1b[".toList ++ colour ++ "m".toList ++ lvl ++ "\x1b[0m".toList

/-- Go (inside `print`): `var cutoff = 30; if len(fn) < cutoff { cutoff = len(fn) }`. -/
def cutoffOf (fn : List Char) : Nat :=
  if fn.length < 30 then fn.length else 30

/-- Go (inside `print`): the path component `"…" + string(fn[len(fn)-cutoff:])`. -/
def truncPath (fn : List Char) : List Char :=
  '…' :: fn.drop (fn.length - cutoffOf fn)

/-- Go's `%Ns` fmt verb on an ASCII string: right-justify by padding with
spaces on the left up to width `w` (Go's fmt measures width in runes). -/
def padLeft (w : Nat) (s : List Char) : List Char :=
  List.replicate (w - s.length) ' ' ++ s

/-- Go's `%-Nd` fmt verb: decimal representation, left-justified by padding
with spaces on the right up to width `w`. -/
def padRightNum (w : Nat) (n : Nat) : List Char :=
  (toString n).toList ++ List.replicate (w - (toString n).toList.length) ' '

/-- Go (inside `print`): the assembled message
`msg := fmt.Sprintf("[%s] %30s:%-3d %s", lvl, "…"+string(fn[len(fn)-cutoff:]), line, msgFmt)`,
with `lvl` first wrapped in ANSI codes when `Colours` is set. -/
def msgOf (colours : Bool) (colour lvl fn : List Char) (line : Nat) (msgFmt : List Char) :
    List Char :=
  let tag := if colours then colourWrap colour lvl else lvl
  '[' :: (tag ++ "] ".toList ++ padLeft 30 (truncPath fn) ++
    ':' :: (padRightNum 3 line ++ ' ' :: msgFmt))

/-- Go: `func print(colour string, lvl string, msgFmt string, v ...interface{})`.
Builds the message and emits it with `Println` when no variadic arguments
were passed, and with `Printf` (the whole message as format string) otherwise. -/
def print (s : State) (colour lvl fn : List Char) (line : Nat) (msgFmt : List Char)
    (v : List (List Char)) : List Event :=
  let msg := msgOf s.Colours colour lvl fn line msgFmt
  if v.length = 0 then [Event.println msg] else [Event.printf msg v]

/-- Go: `func Trace(msgFmt string, v ...interface{})`. -/
def Trace (s : State) (fn : List Char) (ln : Nat) (msgFmt : List Char)
    (v : List (List Char)) : List Event :=
  if s.logLevel < LevelTrace then [] else
  print s "95".toList "TRC".toList fn ln msgFmt v

/-- Go: `func Debug(msgFmt string, v ...interface{})`. -/
def Debug (s : State) (fn : List Char) (ln : Nat) (msgFmt : List Char)
    (v : List (List Char)) : List Event :=
  if s.logLevel < LevelDebug then [] else
  print s "96".toList "DBG".toList fn ln msgFmt v

/-- Go: `func Info(msgFmt string, v ...interface{})`. -/
def Info (s : State) (fn : List Char) (ln : Nat) (msgFmt : List Char)
    (v : List (List Char)) : List Event :=
  if s.logLevel < LevelInfo then [] else
  print s "92".toList "INF".toList fn ln msgFmt v

/-- Go: `func Warn(msgFmt string, v ...interface{})`. -/
def Warn (s : State) (fn : List Char) (ln : Nat) (msgFmt : List Char)
    (v : List (List Char)) : List Event :=
  if s.logLevel < LevelWarning then [] else
  print s "93".toList "WRN".toList fn ln msgFmt v

/-- Go: `func Error(msgFmt string, v ...interface{})`: like the other entry
points but followed by `debug.PrintStack()`. -/
def Error (s : State) (fn : List Char) (ln : Nat) (msgFmt : List Char)
    (v : List (List Char)) : List Event :=
  if s.logLevel < LevelError then [] else
  print s "91".toList "ERR".toList fn ln msgFmt v ++ [Event.stackTrace]

/-- The textual form of the single variadic argument `level` passed to
`Error("Invalid log level %v", level)`. -/
def intArg (n : Int) : List Char := (toString n).toList

/-- Go: `func SetLogLevel(level int)`. Out-of-range values are reported via
`Error` and the stored level is left unchanged. -/
def SetLogLevel (s : State) (fn : List Char) (ln : Nat) (level : Int) :
    State × List Event :=
  if level < LevelNone ∨ LevelTrace < level then
    (s, Error s fn ln "Invalid log level %v".toList [intArg level])
  else
    ({ s with logLevel := level }, [])

/-- Go: `func SetDefaultLevel(level int)`. Out-of-range values are reported
via `Error` and the stored level is left unchanged. -/
def SetDefaultLevel (s : State) (fn : List Char) (ln : Nat) (level : Int) :
    State × List Event :=
  if level < LevelNone ∨ LevelDebug < level then
    (s, Error s fn ln "Invalid log level %v".toList [intArg level])
  else
    ({ s with defaultLevel := level }, [])

/-- Go: `func (writer) Write(p []byte) (n int, err error)`: dispatches on
`defaultLevel` (no case for `LevelNone`: the switch falls through and
nothing is logged), then returns `len(p), nil`. The first component is the
returned pair (`none` models the `nil` error), the second the emitted events. -/
def Write (s : State) (fn : List Char) (ln : Nat) (p : List Char) :
    (Nat × Option (List Char)) × List Event :=
  let es :=
    if s.defaultLevel = LevelDebug then Debug s fn ln p []
    else if s.defaultLevel = LevelInfo then Info s fn ln p []
    else if s.defaultLevel = LevelWarning then Warn s fn ln p []
    else if s.defaultLevel = LevelError then Error s fn ln p []
    else []
  ((p.length, none), es)

/-- One public operation of the package (the caller location observed by
`runtime.Caller(2)` is part of the operation). -/
inductive Op where
  | setLogLevel (fn : List Char) (ln : Nat) (level : Int)
  | setDefaultLevel (fn : List Char) (ln : Nat) (level : Int)
  | setColours (b : Bool)
  | trace (fn : List Char) (ln : Nat) (m : List Char) (v : List (List Char))
  | debug (fn : List Char) (ln : Nat) (m : List Char) (v : List (List Char))
  | info (fn : List Char) (ln : Nat) (m : List Char) (v : List (List Char))
  | warn (fn : List Char) (ln : Nat) (m : List Char) (v : List (List Char))
  | error (fn : List Char) (ln : Nat) (m : List Char) (v : List (List Char))
  | write (fn : List Char) (ln : Nat) (p : List Char)

/-- Small-step semantics: the state after one public operation and the
events it writes to stdout. -/
def step (s : State) (op : Op) : State × List Event :=
  match op with
  | .setLogLevel fn ln l => SetLogLevel s fn ln l
  | .setDefaultLevel fn ln l => SetDefaultLevel s fn ln l
  | .setColours b => ({ s with Colours := b }, [])
  | .trace fn ln m v => (s, Trace s fn ln m v)
  | .debug fn ln m v => (s, Debug s fn ln m v)
  | .info fn ln m v => (s, Info s fn ln m v)
  | .warn fn ln m v => (s, Warn s fn ln m v)
  | .error fn ln m v => (s, Error s fn ln m v)
  | .write fn ln p => (s, (Write s fn ln p).2)

/-- Run a sequence of public operations, keeping only the final state. -/
def run (s : State) (ops : List Op) : State :=
  ops.foldl (fun s op => (step s op).1) s

/-- An event is a formatted output line (as opposed to a stack-trace dump). -/
def isLine : Event → Bool
  | .println _ => true
  | .printf _ _ => true
  | .stackTrace => false

/-- Number of formatted lines among the emitted events. -/
def countLines (es : List Event) : Nat := (es.filter isLine).length

theorem countLines_nil : countLines [] = 0 := rfl

theorem countLines_stackTrace : countLines [Event.stackTrace] = 0 := rfl

theorem countLines_append (a b : List Event) :
    countLines (a ++ b) = countLines a + countLines b := by
  simp [countLines, List.filter_append]

theorem countLines_print (s : State) (c l fn : List Char) (ln : Nat) (m : List Char)
    (v : List (List Char)) : countLines (print s c l fn ln m v) = 1 := by
  unfold print
  dsimp only
  split <;> simp [countLines, isLine]

/-- C1: for every severity L in {Trace, Debug, Info, Warning, Error} and every
value T of the global threshold, a call to the entry point for L emits a
formatted line if and only if T ≥ L (so in particular T = L emits). -/
theorem c1_level_gating (s : State) (fn : List Char) (ln : Nat) (m : List Char)
    (v : List (List Char)) :
    (countLines (Trace s fn ln m v) = 1 ↔ LevelTrace ≤ s.logLevel) ∧
    (countLines (Debug s fn ln m v) = 1 ↔ LevelDebug ≤ s.logLevel) ∧
    (countLines (Info s fn ln m v) = 1 ↔ LevelInfo ≤ s.logLevel) ∧
    (countLines (Warn s fn ln m v) = 1 ↔ LevelWarning ≤ s.logLevel) ∧
    (countLines (Error s fn ln m v) = 1 ↔ LevelError ≤ s.logLevel) := by
  refine ⟨?_, ?_, ?_, ?_, ?_⟩
  · unfold Trace
    split <;> rename_i h
    · rw [countLines_nil]; unfold LevelTrace at *; omega
    · rw [countLines_print]; unfold LevelTrace at *; omega
  · unfold Debug
    split <;> rename_i h
    · rw [countLines_nil]; unfold LevelDebug at *; omega
    · rw [countLines_print]; unfold LevelDebug at *; omega
  · unfold Info
    split <;> rename_i h
    · rw [countLines_nil]; unfold LevelInfo at *; omega
    · rw [countLines_print]; unfold LevelInfo at *; omega
  · unfold Warn
    split <;> rename_i h
    · rw [countLines_nil]; unfold LevelWarning at *; omega
    · rw [countLines_print]; unfold LevelWarning at *; omega
  · unfold Error
    split <;> rename_i h
    · rw [countLines_nil]; unfold LevelError at *; omega
    · rw [countLines_append, countLines_print, countLines_stackTrace]
      unfold LevelError at *; omega

/-- C6: for every byte buffer p and every state, the adapter's Write returns
count = len(p) and a nil error. -/
theorem c6_write_reports_full_count (s : State) (fn : List Char) (ln : Nat)
    (p : List Char) :
    (Write s fn ln p).1 = (p.length, (none : Option (List Char))) := rfl

/-- C8: whenever an Error-level call passes the threshold check
(logLevel ≥ LevelError), the formatted line is written and is immediately
followed by the stack-trace dump, with nothing in between. -/
theorem c8_error_stack_trace (s : State) (fn : List Char) (ln : Nat) (m : List Char)
    (v : List (List Char)) (h : LevelError ≤ s.logLevel) :
    ∃ line, Error s fn ln m v = [line, Event.stackTrace] ∧ isLine line = true := by
  unfold Error
  rw [if_neg (by unfold LevelError at *; omega)]
  unfold print
  dsimp only
  split
  · exact ⟨_, rfl, rfl⟩
  · exact ⟨_, rfl, rfl⟩

theorem c8_error_stack_trace_witness :
    ∃ line, Error initState [] 0 [] [] = [line, Event.stackTrace] ∧ isLine line = true :=
  c8_error_stack_trace initState [] 0 [] [] (by decide)

/-- C9: whenever the global threshold is below severity S, the entry point
for S returns immediately: no events are emitted and the whole state
(threshold, default level, colour flag) is unchanged. -/
theorem c9_suppressed_noop (s : State) (fn : List Char) (ln : Nat) (m : List Char)
    (v : List (List Char)) :
    (s.logLevel < LevelTrace → step s (Op.trace fn ln m v) = (s, [])) ∧
    (s.logLevel < LevelDebug → step s (Op.debug fn ln m v) = (s, [])) ∧
    (s.logLevel < LevelInfo → step s (Op.info fn ln m v) = (s, [])) ∧
    (s.logLevel < LevelWarning → step s (Op.warn fn ln m v) = (s, [])) ∧
    (s.logLevel < LevelError → step s (Op.error fn ln m v) = (s, [])) := by
  refine ⟨fun h => ?_, fun h => ?_, fun h => ?_, fun h => ?_, fun h => ?_⟩ <;>
    simp [step, Trace, Debug, Info, Warn, Error, h]

theorem step_bounds (s : State) (op : Op)
    (h1 : LevelNone ≤ s.logLevel) (h2 : s.logLevel ≤ LevelTrace)
    (h3 : LevelNone ≤ s.defaultLevel) (h4 : s.defaultLevel ≤ LevelDebug) :
    LevelNone ≤ (step s op).1.logLevel ∧ (step s op).1.logLevel ≤ LevelTrace ∧
    LevelNone ≤ (step s op).1.defaultLevel ∧ (step s op).1.defaultLevel ≤ LevelDebug := by
  cases op <;> try exact ⟨h1, h2, h3, h4⟩
  case setLogLevel fn ln l =>
    simp only [step, SetLogLevel]
    split
    · exact ⟨h1, h2, h3, h4⟩
    · rename_i hc
      unfold LevelNone LevelTrace at *
      push_neg at hc
      exact ⟨hc.1, hc.2, h3, h4⟩
  case setDefaultLevel fn ln l =>
    simp only [step, SetDefaultLevel]
    split
    · exact ⟨h1, h2, h3, h4⟩
    · rename_i hc
      unfold LevelNone LevelDebug at *
      push_neg at hc
      exact ⟨h1, h2, hc.1, hc.2⟩

/-- C7: after any sequence of public operations starting from the initial
state, the global threshold stays in [None, Trace] and the default adapter
level stays in [None, Debug]. -/
theorem c7_state_invariant (ops : List Op) :
    LevelNone ≤ (run initState ops).logLevel ∧
    (run initState ops).logLevel ≤ LevelTrace ∧
    LevelNone ≤ (run initState ops).defaultLevel ∧
    (run initState ops).defaultLevel ≤ LevelDebug := by
  suffices key : ∀ (l : List Op) (s : State),
      LevelNone ≤ s.logLevel → s.logLevel ≤ LevelTrace →
      LevelNone ≤ s.defaultLevel → s.defaultLevel ≤ LevelDebug →
      LevelNone ≤ (run s l).logLevel ∧ (run s l).logLevel ≤ LevelTrace ∧
      LevelNone ≤ (run s l).defaultLevel ∧ (run s l).defaultLevel ≤ LevelDebug by
    exact key ops initState (by decide) (by decide) (by decide) (by decide)
  intro l
  induction l with
  | nil => exact fun s h1 h2 h3 h4 => ⟨h1, h2, h3, h4⟩
  | cons op rest ih =>
    intro s h1 h2 h3 h4
    have hb := step_bounds s op h1 h2 h3 h4
    exact ih (step s op).1 hb.1 hb.2.1 hb.2.2.1 hb.2.2.2

theorem c9_suppressed_noop_witness :
    step { logLevel := 0, defaultLevel := 4, Colours := false } (Op.trace [] 0 [] [])
      = ({ logLevel := 0, defaultLevel := 4, Colours := false }, []) ∧
    step { logLevel := 0, defaultLevel := 4, Colours := false } (Op.debug [] 0 [] [])
      = ({ logLevel := 0, defaultLevel := 4, Colours := false }, []) ∧
    step { logLevel := 0, defaultLevel := 4, Colours := false } (Op.info [] 0 [] [])
      = ({ logLevel := 0, defaultLevel := 4, Colours := false }, []) ∧
    step { logLevel := 0, defaultLevel := 4, Colours := false } (Op.warn [] 0 [] [])
      = ({ logLevel := 0, defaultLevel := 4, Colours := false }, []) ∧
    step { logLevel := 0, defaultLevel := 4, Colours := false } (Op.error [] 0 [] [])
      = ({ logLevel := 0, defaultLevel := 4, Colours := false }, []) := by
  have h := c9_suppressed_noop { logLevel := 0, defaultLevel := 4, Colours := false } [] 0 [] []
  exact ⟨h.1 (by decide), h.2.1 (by decide), h.2.2.1 (by decide),
    h.2.2.2.1 (by decide), h.2.2.2.2 (by decide)⟩

theorem truncPath_inside_msgOf (colours : Bool) (colour lvl fn : List Char) (ln : Nat)
    (mf : List Char) :
    truncPath fn <:+: msgOf colours colour lvl fn ln mf := by
  refine ⟨'[' :: ((if colours then colourWrap colour lvl else lvl) ++ "] ".toList ++
    List.replicate (30 - (truncPath fn).length) ' '),
    ':' :: (padRightNum 3 ln ++ ' ' :: mf), ?_⟩
  simp [msgOf, padLeft]

theorem msgFmt_suffix_msgOf (colours : Bool) (colour lvl fn : List Char) (ln : Nat)
    (mf : List Char) :
    mf <:+ msgOf colours colour lvl fn ln mf := by
  refine ⟨'[' :: ((if colours then colourWrap colour lvl else lvl) ++ "] ".toList ++
    padLeft 30 (truncPath fn) ++ ':' :: (padRightNum 3 ln ++ [' '])), ?_⟩
  simp [msgOf]

theorem tag_inside_msgOf (colours : Bool) (colour lvl fn : List Char) (ln : Nat)
    (mf : List Char) :
    lvl <:+: msgOf colours colour lvl fn ln mf := by
  cases colours
  · exact ⟨['['], "] ".toList ++ padLeft 30 (truncPath fn) ++
      ':' :: (padRightNum 3 ln ++ ' ' :: mf), by simp [msgOf]⟩
  · exact ⟨'[' :: "\x1b[1m\x1b[".toList ++ colour ++ "m".toList,
      "\x1b[0m".toList ++ "] ".toList ++ padLeft 30 (truncPath fn) ++
      ':' :: (padRightNum 3 ln ++ ' ' :: mf), by simp [msgOf, colourWrap]⟩

theorem cutoffOf_eq_min (fn : List Char) : cutoffOf fn = min fn.length 30 := by
  unfold cutoffOf
  split <;> omega

/-- C2 counterexample: the ellipsis marker is prepended even when the path is
short. For the 7-character path "main.go" (≤ 30 characters, where the claim
says the line contains the path verbatim with no ellipsis marker), the
emitted line contains '…' directly followed by the path. -/
theorem c2_short_path_counterexample :
    "main.go".toList.length ≤ 30 ∧
    ∃ m, Debug initState "main.go".toList 10 "hi".toList [] = [Event.println m] ∧
      ('…' :: "main.go".toList) <:+: m ∧ '…' ∈ m := by
  refine ⟨by decide,
    msgOf false "96".toList "DBG".toList "main.go".toList 10 "hi".toList,
    by decide, by decide, by decide⟩

/-- C2 amended: for every caller path p the formatted line contains the
ellipsis marker followed by exactly the last min(len p, 30) characters of p:
the last 30 characters when len p > 30, and all of p (still preceded by the
ellipsis marker) when len p ≤ 30. -/
theorem c2_path_truncation (colours : Bool) (colour lvl fn : List Char) (ln : Nat)
    (mf : List Char) :
    ('…' :: fn.drop (fn.length - min fn.length 30)) <:+:
      msgOf colours colour lvl fn ln mf ∧
    (fn.drop (fn.length - min fn.length 30)).length = min fn.length 30 := by
  constructor
  · have h : ('…' :: fn.drop (fn.length - min fn.length 30)) = truncPath fn := by
      rw [truncPath, cutoffOf_eq_min]
    rw [h]
    exact truncPath_inside_msgOf colours colour lvl fn ln mf
  · rw [List.length_drop]
    have := Nat.min_le_left fn.length 30
    omega

/-- C10: when positional arguments are supplied, the format string handed to
the substitution step (Printf) is the entire assembled line — it has the
truncated caller path inside it and ends with the user's template — so any
format directives in the caller path are subject to argument substitution;
with no arguments the assembled line is emitted literally (Println). -/
theorem c10_whole_line_is_format_string (s : State) (colour lvl fn : List Char)
    (ln : Nat) (mf : List Char) (v : List (List Char)) :
    (v ≠ [] →
      print s colour lvl fn ln mf v
        = [Event.printf (msgOf s.Colours colour lvl fn ln mf) v] ∧
      truncPath fn <:+: msgOf s.Colours colour lvl fn ln mf ∧
      mf <:+ msgOf s.Colours colour lvl fn ln mf) ∧
    (v = [] →
      print s colour lvl fn ln mf v
        = [Event.println (msgOf s.Colours colour lvl fn ln mf)]) := by
  constructor
  · intro hv
    refine ⟨?_, truncPath_inside_msgOf _ _ _ _ _ _, msgFmt_suffix_msgOf _ _ _ _ _ _⟩
    unfold print
    dsimp only
    rw [if_neg (by simpa [List.length_eq_zero] using hv)]
  · intro hv
    subst hv
    rfl

theorem c10_whole_line_is_format_string_witness :
    print initState "96".toList "DBG".toList "a.go".toList 3 "n=%d".toList ["7".toList]
      = [Event.printf (msgOf false "96".toList "DBG".toList "a.go".toList 3
          "n=%d".toList) ["7".toList]] ∧
    truncPath "a.go".toList <:+:
      msgOf false "96".toList "DBG".toList "a.go".toList 3 "n=%d".toList := by
  have h := (c10_whole_line_is_format_string initState "96".toList "DBG".toList
    "a.go".toList 3 "n=%d".toList ["7".toList]).1 (by decide)
  exact ⟨h.1, h.2.1⟩

theorem countLines_err_pair (m : List Char) (v : List (List Char)) :
    countLines [Event.printf m v, Event.stackTrace] = 1 := rfl

/-- C3 counterexample: with the global threshold at LevelNone — a reachable
state — the out-of-range call SetLogLevel(7) leaves the threshold unchanged
but emits no line at all (the internal Error call is itself suppressed by the
threshold), contradicting "produces exactly one Error-level output line". -/
theorem c3_none_threshold_counterexample :
    run initState [Op.setLogLevel [] 0 0]
      = { logLevel := 0, defaultLevel := 4, Colours := false } ∧
    (step { logLevel := 0, defaultLevel := 4, Colours := false }
      (Op.setLogLevel [] 0 7)).1
      = { logLevel := 0, defaultLevel := 4, Colours := false } ∧
    countLines (step { logLevel := 0, defaultLevel := 4, Colours := false }
      (Op.setLogLevel [] 0 7)).2 = 0 := by
  exact ⟨by decide, by decide, by decide⟩

/-- C3 amended: for every out-of-range level, SetLogLevel leaves the state
unchanged; it routes the report through the Error entry point, so exactly one
Error-tagged line (followed by the stack-trace dump) is emitted when the
prior global threshold is ≥ Error, and nothing is emitted when the prior
threshold is below Error (i.e. None). -/
theorem c3_invalid_loglevel (s : State) (fn : List Char) (ln : Nat) (level : Int)
    (h : level < LevelNone ∨ LevelTrace < level) :
    (SetLogLevel s fn ln level).1 = s ∧
    (LevelError ≤ s.logLevel →
      (SetLogLevel s fn ln level).2
        = [Event.printf (msgOf s.Colours "91".toList "ERR".toList fn ln
            "Invalid log level %v".toList) [intArg level], Event.stackTrace] ∧
      countLines (SetLogLevel s fn ln level).2 = 1) ∧
    (s.logLevel < LevelError → (SetLogLevel s fn ln level).2 = []) := by
  unfold SetLogLevel
  rw [if_pos h]
  refine ⟨rfl, fun he => ?_, fun he => ?_⟩
  · have hE : Error s fn ln "Invalid log level %v".toList [intArg level]
        = [Event.printf (msgOf s.Colours "91".toList "ERR".toList fn ln
            "Invalid log level %v".toList) [intArg level], Event.stackTrace] := by
      unfold Error
      rw [if_neg (not_lt.mpr he)]
      unfold print
      dsimp only
      rw [if_neg (by simp)]
      rfl
    exact ⟨hE, by rw [hE]; exact countLines_err_pair _ _⟩
  · unfold Error
    rw [if_pos he]

theorem c3_invalid_loglevel_witness :
    (SetLogLevel initState [] 0 7).1 = initState ∧
    (SetLogLevel initState [] 0 7).2
      = [Event.printf (msgOf false "91".toList "ERR".toList [] 0
          "Invalid log level %v".toList) [intArg 7], Event.stackTrace] := by
  have h := c3_invalid_loglevel initState [] 0 7 (Or.inr (by decide))
  exact ⟨h.1, (h.2.1 (by decide)).1⟩

/-- C4 counterexample: with the global threshold at LevelNone — a reachable
state — the out-of-range call SetDefaultLevel(5) (Trace, rejected as a
default adapter level) leaves the default level unchanged but emits no line
at all, contradicting "produces exactly one Error-level output line". -/
theorem c4_none_threshold_counterexample :
    run initState [Op.setLogLevel [] 1 0]
      = { logLevel := 0, defaultLevel := 4, Colours := false } ∧
    (step { logLevel := 0, defaultLevel := 4, Colours := false }
      (Op.setDefaultLevel [] 0 5)).1
      = { logLevel := 0, defaultLevel := 4, Colours := false } ∧
    countLines (step { logLevel := 0, defaultLevel := 4, Colours := false }
      (Op.setDefaultLevel [] 0 5)).2 = 0 := by
  exact ⟨by decide, by decide, by decide⟩

/-- C4 amended: for every level outside [None, Debug], SetDefaultLevel leaves
the state unchanged; exactly one Error-tagged line (followed by the
stack-trace dump) is emitted when the prior global threshold is ≥ Error, and
nothing is emitted when the prior threshold is below Error. -/
theorem c4_invalid_defaultlevel (s : State) (fn : List Char) (ln : Nat) (level : Int)
    (h : level < LevelNone ∨ LevelDebug < level) :
    (SetDefaultLevel s fn ln level).1 = s ∧
    (LevelError ≤ s.logLevel →
      (SetDefaultLevel s fn ln level).2
        = [Event.printf (msgOf s.Colours "91".toList "ERR".toList fn ln
            "Invalid log level %v".toList) [intArg level], Event.stackTrace] ∧
      countLines (SetDefaultLevel s fn ln level).2 = 1) ∧
    (s.logLevel < LevelError → (SetDefaultLevel s fn ln level).2 = []) := by
  unfold SetDefaultLevel
  rw [if_pos h]
  refine ⟨rfl, fun he => ?_, fun he => ?_⟩
  · have hE : Error s fn ln "Invalid log level %v".toList [intArg level]
        = [Event.printf (msgOf s.Colours "91".toList "ERR".toList fn ln
            "Invalid log level %v".toList) [intArg level], Event.stackTrace] := by
      unfold Error
      rw [if_neg (not_lt.mpr he)]
      unfold print
      dsimp only
      rw [if_neg (by simp)]
      rfl
    exact ⟨hE, by rw [hE]; exact countLines_err_pair _ _⟩
  · unfold Error
    rw [if_pos he]

theorem c4_invalid_defaultlevel_witness :
    (SetDefaultLevel initState [] 0 5).1 = initState ∧
    (SetDefaultLevel initState [] 0 5).2
      = [Event.printf (msgOf false "91".toList "ERR".toList [] 0
          "Invalid log level %v".toList) [intArg 5], Event.stackTrace] := by
  have h := c4_invalid_defaultlevel initState [] 0 5 (Or.inr (by decide))
  exact ⟨h.1, (h.2.1 (by decide)).1⟩

/-- C5 counterexample: with the default adapter level at LevelNone — a legal,
reachable value — and the global threshold fully open (Trace), the adapter's
Write invokes no entry point at all: it emits nothing, contradicting
"exactly one of the four entry points is invoked ... including LevelNone". -/
theorem c5_none_default_counterexample :
    run initState [Op.setLogLevel [] 0 5, Op.setDefaultLevel [] 0 0]
      = { logLevel := 5, defaultLevel := 0, Colours := false } ∧
    (step { logLevel := 5, defaultLevel := 0, Colours := false }
      (Op.write [] 0 "hello".toList)).2 = [] := by
  exact ⟨by decide, by decide⟩

/-- C5 amended: the adapter's Write dispatches on the default adapter level
read at call time: with the threshold fully open, each of Debug, Info,
Warning and Error selects exactly the corresponding entry point (one line,
bearing that entry point's tag), while LevelNone selects none and nothing is
emitted. -/
theorem c5_write_dispatch (s : State) (fn : List Char) (ln : Nat) (p : List Char)
    (h5 : s.logLevel = LevelTrace) :
    (s.defaultLevel = LevelDebug →
      ∃ m, (step s (Op.write fn ln p)).2 = [Event.println m] ∧
        "DBG".toList <:+: m) ∧
    (s.defaultLevel = LevelInfo →
      ∃ m, (step s (Op.write fn ln p)).2 = [Event.println m] ∧
        "INF".toList <:+: m) ∧
    (s.defaultLevel = LevelWarning →
      ∃ m, (step s (Op.write fn ln p)).2 = [Event.println m] ∧
        "WRN".toList <:+: m) ∧
    (s.defaultLevel = LevelError →
      ∃ m, (step s (Op.write fn ln p)).2 = [Event.println m, Event.stackTrace] ∧
        "ERR".toList <:+: m) ∧
    (s.defaultLevel = LevelNone → (step s (Op.write fn ln p)).2 = []) := by
  refine ⟨fun hd => ?_, fun hd => ?_, fun hd => ?_, fun hd => ?_, fun hd => ?_⟩
  · refine ⟨msgOf s.Colours "96".toList "DBG".toList fn ln p, ?_,
      tag_inside_msgOf _ _ _ _ _ _⟩
    simp [step, Write, hd, Debug, print, h5, LevelDebug, LevelTrace]
  · refine ⟨msgOf s.Colours "92".toList "INF".toList fn ln p, ?_,
      tag_inside_msgOf _ _ _ _ _ _⟩
    simp [step, Write, hd, Info, print, h5, LevelDebug, LevelInfo, LevelTrace]
  · refine ⟨msgOf s.Colours "93".toList "WRN".toList fn ln p, ?_,
      tag_inside_msgOf _ _ _ _ _ _⟩
    simp [step, Write, hd, Warn, print, h5, LevelDebug, LevelInfo, LevelWarning,
      LevelTrace]
  · refine ⟨msgOf s.Colours "91".toList "ERR".toList fn ln p, ?_,
      tag_inside_msgOf _ _ _ _ _ _⟩
    simp [step, Write, hd, Error, print, h5, LevelDebug, LevelInfo, LevelWarning,
      LevelError, LevelTrace]
  · simp [step, Write, hd, LevelDebug, LevelInfo, LevelWarning, LevelError,
      LevelNone]

theorem c5_write_dispatch_witness :
    ∃ m, (step { logLevel := 5, defaultLevel := 4, Colours := false }
      (Op.write [] 0 "hello".toList)).2 = [Event.println m] ∧
      "DBG".toList <:+: m := by
  have h := c5_write_dispatch { logLevel := 5, defaultLevel := 4, Colours := false }
    [] 0 "hello".toList (by decide)
  exact h.1 (by decide)

end Log
